import Mathlib

/-!
Verification of the miami-MTI telemetry dashboard's permission-evaluation,
query, ingestion, login and room-broadcast logic, shallowly embedded from
the Python source (`app/models/*.py`, `app/blueprints/*/routes.py`).
-/

namespace MTI

/-! ## Capability model (`app/models/permission_models.py`) -/

/-- One `RolePermission` row: the eight independent capability booleans. -/
structure RolePermission where
  can_view_panel_1 : Bool
  can_view_panel_2 : Bool
  can_view_panel_3 : Bool
  can_view_panel_4 : Bool
  can_export_data : Bool
  can_edit_data : Bool
  can_manage_users : Bool
  can_view_access_logs : Bool
deriving DecidableEq, Repr

/-- `DEFAULT_PERMISSIONS`: the shipped role-name → capability-set table
(permission_models.py lines 47-98); `none` for a role name with no entry. -/
def DEFAULT_PERMISSIONS : String → Option RolePermission
  | "Investor" => some
    { can_view_panel_1 := true, can_view_panel_2 := true
      can_view_panel_3 := false, can_view_panel_4 := false
      can_export_data := false, can_edit_data := false
      can_manage_users := false, can_view_access_logs := false }
  | "Audit" => some
    { can_view_panel_1 := true, can_view_panel_2 := true
      can_view_panel_3 := true, can_view_panel_4 := false
      can_export_data := true, can_edit_data := false
      can_manage_users := false, can_view_access_logs := true }
  | "Operator" => some
    { can_view_panel_1 := true, can_view_panel_2 := true
      can_view_panel_3 := true, can_view_panel_4 := true
      can_export_data := false, can_edit_data := false
      can_manage_users := false, can_view_access_logs := false }
  | "Engineer" => some
    { can_view_panel_1 := true, can_view_panel_2 := true
      can_view_panel_3 := true, can_view_panel_4 := true
      can_export_data := true, can_edit_data := true
      can_manage_users := false, can_view_access_logs := false }
  | "Manager" => some
    { can_view_panel_1 := true, can_view_panel_2 := true
      can_view_panel_3 := true, can_view_panel_4 := true
      can_export_data := true, can_edit_data := true
      can_manage_users := true, can_view_access_logs := true }
  | _ => none

/-! ## Principal model (`app/models/user_models.py`) -/

/-- A `Role` row with its (possibly absent) one-to-one `RolePermission`. -/
structure Role where
  name : String
  permissions : Option RolePermission
deriving DecidableEq, Repr

/-- A `User` row. `password_hash` is the stored credential (the hashing
primitive is opaque per the spec; verification is modelled as exact match).
`role` is `none` when `role_id` resolves to no role. -/
structure User where
  id : Nat
  username : String
  password_hash : String
  role : Option Role
deriving DecidableEq, Repr

/-- `User.get_permissions`: `self.role and self.role.permissions`, else `None`. -/
def User.get_permissions (u : User) : Option RolePermission :=
  match u.role with
  | some r => r.permissions
  | none => none

/-- `User.can_view_panel(panel_num)`: deny when permissions are absent,
else `getattr(perms, f'can_view_panel_{panel_num}', False)` — the getattr
default makes any panel number outside 1..4 read as `False`. -/
def User.can_view_panel (u : User) (panel_num : Nat) : Bool :=
  match u.get_permissions with
  | none => false
  | some perms =>
    match panel_num with
    | 1 => perms.can_view_panel_1
    | 2 => perms.can_view_panel_2
    | 3 => perms.can_view_panel_3
    | 4 => perms.can_view_panel_4
    | _ => false

/-- `User.can_export`. -/
def User.can_export (u : User) : Bool :=
  match u.get_permissions with
  | some perms => perms.can_export_data
  | none => false

/-- `User.can_edit`. -/
def User.can_edit (u : User) : Bool :=
  match u.get_permissions with
  | some perms => perms.can_edit_data
  | none => false

/-- `User.can_access_admin`. -/
def User.can_access_admin (u : User) : Bool :=
  match u.get_permissions with
  | some perms => perms.can_manage_users
  | none => false

/-- `User.can_view_logs`. -/
def User.can_view_logs (u : User) : Bool :=
  match u.get_permissions with
  | some perms => perms.can_view_access_logs
  | none => false

/-- `User.check_password`: verification against the stored credential
(`check_password_hash`, an opaque primitive, modelled as exact match). -/
def User.check_password (u : User) (password : String) : Bool :=
  u.password_hash == password

/-- A principal whose role carries the shipped default capability set for
role name `r`. -/
def principal_with_role (r : String) : User :=
  { id := 1, username := "u", password_hash := "pw"
    role := some { name := r, permissions := DEFAULT_PERMISSIONS r } }

/-- A concrete principal with no role at all. -/
def rolelessUser : User :=
  { id := 7, username := "ghost", password_hash := "pw", role := none }

/-! ## Admin user deletion (`app/blueprints/admin/routes.py`) -/

/-- The observable outcome of a `POST /admin/users/<id>/delete` request. -/
inductive DeleteOutcome
  | redirect_login
  | access_denied (message : String)
  | http_not_found
  | self_delete_denied (message : String)
  | deleted (username : String)
deriving DecidableEq, Repr

/-- `delete_user(user_id)` for an authenticated principal `cu`, including
the `manager_required` guard that runs first: deny without the
`can_manage_users` capability, 404 on an unknown id, refuse self-deletion,
otherwise delete the row.  Returns the outcome and the database after the
request. -/
def delete_user (db : List User) (cu : User) (user_id : Nat) :
    DeleteOutcome × List User :=
  if cu.can_access_admin = false then
    (.access_denied "Access denied. Admin privileges required.", db)
  else
    match db.find? (fun u => u.id == user_id) with
    | none => (.http_not_found, db)
    | some u =>
      if u.id == cu.id then
        (.self_delete_denied "You cannot delete yourself.", db)
      else
        (.deleted u.username, db.filter (fun v => v.id != user_id))

/-! ## Login (`app/blueprints/auth/routes.py`) -/

/-- The observable response of a login POST: an optional flash message
(text, category) and the redirect target. -/
structure LoginResponse where
  flash : Option (String × String)
  redirect : String
deriving DecidableEq, Repr

/-- `url_for('auth.login')`. -/
def login_url : String := "/auth/login"

/-- `url_for('dashboard.grid_view')`. -/
def dashboard_grid_url : String := "/dashboard/"

/-- Python's `str.startswith`, computed on the character lists. -/
def py_startswith (s pat : String) : Bool :=
  pat.data.isPrefixOf s.data

/-- The `next`-target handling after a successful login (routes.py lines
27-30): use the `next` query parameter only when it is present, non-empty
and starts with a slash; otherwise redirect to the dashboard grid view. -/
def login_next_redirect (next_page : Option String) : String :=
  match next_page with
  | none => dashboard_grid_url
  | some np =>
    if np = "" || !(py_startswith np "/") then dashboard_grid_url else np

/-- The POST branch of `login` for an unauthenticated visitor: look up the
username, verify the credential, flash the uniform failure message and
redirect back to the login page on failure, else redirect to the sanitised
`next` target. -/
def login_post (db : List User) (username password : String)
    (next_page : Option String) : LoginResponse :=
  match db.find? (fun u => u.username == username) with
  | none =>
    { flash := some ("Invalid username or password", "error")
      redirect := login_url }
  | some user =>
    if user.check_password password = false then
      { flash := some ("Invalid username or password", "error")
        redirect := login_url }
    else
      { flash := none, redirect := login_next_redirect next_page }

/-! ## Telemetry ingestion (`app/blueprints/api/routes.py`, `POST /api/ingest`) -/

/-- The result of a successful Python `float(value)` coercion: a finite
rational, a signed infinity (e.g. `float("inf")`), or a NaN. -/
inductive PyFloat
  | finite (q : ℚ)
  | posInf
  | negInf
  | nan
deriving DecidableEq, Repr

/-- A JSON field value as the ingest loop sees it, abstracted by how
`float()` behaves on it: absent or `null`, coercible to some `PyFloat`, or
raising `TypeError`/`ValueError`. -/
inductive PyVal
  | vnone
  | coercible (f : PyFloat)
  | uncoercible
deriving DecidableEq, Repr

/-- `float(value)` as a partial function; the loop's `value is None` check
is folded in since `float(None)` raises as well. -/
def pyfloat : PyVal → Option PyFloat
  | .vnone => none
  | .coercible f => some f
  | .uncoercible => none

/-- One raw record from the posted JSON body.  A `none` field models an
absent key (`item.get` returns `None`). -/
structure RawRecord where
  sensor_name : Option String
  value : PyVal
  unit : Option String
  status : Option String
deriving DecidableEq, Repr

/-- A created `SensorData` row as echoed in the response's data list.  The
database-assigned id and timestamp are omitted: they are not part of the
submitted content. -/
structure CreatedRecord where
  sensor_name : String
  value : PyFloat
  unit : String
  status : String
deriving DecidableEq, Repr

/-- The body of the ingest loop for one item: `none` when the item is
skipped (`continue` on a falsy sensor name, a `None` value, or a failing
`float(value)`), else the row that is added and echoed. -/
def ingest_item (item : RawRecord) : Option CreatedRecord :=
  let sensor_name := item.sensor_name.getD ""
  if sensor_name = "" then none
  else
    match pyfloat item.value with
    | none => none
    | some f =>
      some { sensor_name := sensor_name, value := f
             unit := item.unit.getD "", status := item.status.getD "OK" }

/-- The ingest response body: `created` count and `data` list (HTTP 201). -/
structure IngestResponse where
  created : Nat
  data : List CreatedRecord
deriving DecidableEq, Repr

/-- `ingest_sensor_data` on a parsed non-empty JSON array: iterate the
items, skip malformed ones, append each created row, and report the count
and content of the created rows. -/
def ingest_sensor_data (items : List RawRecord) : IngestResponse :=
  let created := items.foldl (fun acc item =>
    match ingest_item item with
    | none => acc
    | some row => acc ++ [row]) []
  { created := created.length, data := created }

/-- Malformed in the sense the spec sentence uses: empty or missing source
name, or a value that does not coerce to a finite float. -/
def spec_malformed (item : RawRecord) : Bool :=
  item.sensor_name.getD "" = "" ||
    (match pyfloat item.value with
     | some (PyFloat.finite _) => false
     | _ => true)

/-- Malformed in the sense the code actually checks: empty or missing
source name, or a value on which `float()` raises — finiteness of the
coerced float is never tested. -/
def malformed (item : RawRecord) : Bool :=
  item.sensor_name.getD "" = "" || (pyfloat item.value).isNone

/-- The row created for a well-formed record, written declaratively. -/
def created_row (item : RawRecord) : CreatedRecord :=
  { sensor_name := item.sensor_name.getD ""
    value := (pyfloat item.value).getD (PyFloat.finite 0)
    unit := item.unit.getD ""
    status := item.status.getD "OK" }

/-- A record whose value is the string `"inf"`: `float("inf")` succeeds
(yielding a non-finite float), so the code creates the row. -/
def inf_item : RawRecord :=
  { sensor_name := some "sensor-a", value := .coercible .posInf
    unit := none, status := none }

/-! ## Telemetry store queries (`app/blueprints/api/routes.py`) -/

/-- A stored `SensorData` row.  Timestamps live on an integer timeline in
seconds; the ordering is all the query logic uses of `datetime`. -/
structure Reading where
  id : Nat
  timestamp : Int
  sensor_name : String
  value : ℚ
  unit : String
  status : String
deriving DecidableEq, Repr

/-- `ORDER BY timestamp DESC` as a relation: an earlier result position
has a later-or-equal timestamp. -/
def tsDesc (a b : Reading) : Prop := b.timestamp ≤ a.timestamp

instance : DecidableRel tsDesc := fun a b => Int.decLe b.timestamp a.timestamp

instance : IsTotal Reading tsDesc := ⟨fun a b => le_total b.timestamp a.timestamp⟩

instance : IsTrans Reading tsDesc := ⟨fun _ _ _ h1 h2 => le_trans h2 h1⟩

/-- The optional exact sensor-name filter of `get_sensor_data`, skipped
when the parameter is absent or empty (both falsy in Python). -/
def query_name_filter (table : List Reading) (sensor_name : Option String) :
    List Reading :=
  match sensor_name with
  | some n => if n = "" then table else table.filter (fun r => r.sensor_name == n)
  | none => table

/-- The filter stage of `get_sensor_data`: the name filter, then the
window `timestamp >= utcnow() - timedelta(hours=hours)`. -/
def query_matching (table : List Reading) (sensor_name : Option String)
    (hours : Int) (now : Int) : List Reading :=
  (query_name_filter table sensor_name).filter
    (fun r => decide (now - hours * 3600 ≤ r.timestamp))

/-- `GET /api/sensor-data`: filter, order newest-first, take `limit`
rows, and reverse them into chronological order for the response. -/
def get_sensor_data (table : List Reading) (sensor_name : Option String)
    (hours : Int) (limit : Nat) (now : Int) : List Reading :=
  (((query_matching table sensor_name hours now).insertionSort tsDesc).take limit).reverse

/-- The observable outcome of `GET /api/export`: a 403 abort carries no
file; a success carries the HTTP status, the MIME type and the exported
rows (the workbook byte format is outside the modelled scope). -/
inductive ExportResult
  | forbidden (status : Nat) (description : String)
  | file (status : Nat) (mimetype : String) (rows : List Reading)
deriving DecidableEq, Repr

/-- The MIME type declared on a successful export. -/
def export_mimetype : String :=
  "application/vnd.openxmlformats-officedocument.spreadsheetml.sheet"

/-- The rows an export contains: the optional parsed date-range bounds
applied, then ordered newest-first. -/
def export_rows (table : List Reading) (start_date end_date : Option Int) :
    List Reading :=
  let q1 : List Reading := match start_date with
    | some s => table.filter (fun r => decide (s ≤ r.timestamp))
    | none => table
  let q2 : List Reading := match end_date with
    | some e => q1.filter (fun r => decide (r.timestamp ≤ e))
    | none => q1
  q2.insertionSort tsDesc

/-- `export_xlsx`: abort 403 without the export capability; otherwise send
the workbook built from the filtered rows with the spreadsheet MIME type. -/
def export_xlsx (cu : User) (table : List Reading)
    (start_date end_date : Option Int) : ExportResult :=
  if cu.can_export = false then
    .forbidden 403 "You do not have permission to export data."
  else
    .file 200 export_mimetype (export_rows table start_date end_date)

/-- A reading two hours old relative to `now = 7200`. -/
def readingOld : Reading :=
  { id := 1, timestamp := 0, sensor_name := "s", value := 1, unit := "C", status := "OK" }

/-- A reading inside the one-hour window. -/
def readingMid : Reading :=
  { id := 2, timestamp := 7000, sensor_name := "s", value := 2, unit := "C", status := "OK" }

/-- The most recent reading. -/
def readingNew : Reading :=
  { id := 3, timestamp := 7100, sensor_name := "s", value := 3, unit := "C", status := "OK" }

/-- A three-row table used to witness the query claims. -/
def demo_table : List Reading := [readingOld, readingMid, readingNew]

/-! ## Room broadcasting (`app/blueprints/websocket/routes.py`) -/

/-- An outbound socket event relevant to the room claims. -/
inductive WSEvent
  | room_joined (room : String)
  | room_left (room : String)
  | panel_data (panel_id : Option Nat) (data : String) (timestamp : String)
deriving DecidableEq, Repr

/-- One live connection: its socket id, its room memberships, and the
events delivered to it so far (oldest first). -/
structure Conn where
  sid : Nat
  rooms : List String
  inbox : List WSEvent
deriving DecidableEq, Repr

/-- The connection registry at one instant. -/
structure WSState where
  conns : List Conn
deriving DecidableEq, Repr

/-- `emit(..., room=room)`: append the event to the inbox of every
connection currently a member of the room (including the sender when it is
a member), leaving every other connection untouched. -/
def emitToRoom (st : WSState) (room : String) (ev : WSEvent) : WSState :=
  ⟨st.conns.map (fun c =>
    if room ∈ c.rooms then { c with inbox := c.inbox ++ [ev] } else c)⟩

/-- A plain `emit(...)` inside a handler: deliver to the requesting
connection only. -/
def emitToSid (st : WSState) (sid : Nat) (ev : WSEvent) : WSState :=
  ⟨st.conns.map (fun c =>
    if c.sid = sid then { c with inbox := c.inbox ++ [ev] } else c)⟩

/-- `join_room(room)`: add the room to the requester's memberships (a
no-op when already a member). -/
def joinRoomState (st : WSState) (sid : Nat) (room : String) : WSState :=
  ⟨st.conns.map (fun c =>
    if c.sid = sid then
      { c with rooms := if room ∈ c.rooms then c.rooms else c.rooms ++ [room] }
    else c)⟩

/-- `leave_room(room)`: remove the room from the requester's memberships. -/
def leaveRoomState (st : WSState) (sid : Nat) (room : String) : WSState :=
  ⟨st.conns.map (fun c =>
    if c.sid = sid then { c with rooms := c.rooms.erase room } else c)⟩

/-- `handle_join_room`: `data.get('room', 'default')`, join it, and
acknowledge `room_joined` to the requester only. -/
def handle_join_room (st : WSState) (sid : Nat) (payload_room : Option String) :
    WSState :=
  let room := payload_room.getD "default"
  emitToSid (joinRoomState st sid room) sid (.room_joined room)

/-- `handle_leave_room`: `data.get('room', 'default')`, leave it, and
acknowledge `room_left` to the requester only. -/
def handle_leave_room (st : WSState) (sid : Nat) (payload_room : Option String) :
    WSState :=
  let room := payload_room.getD "default"
  emitToSid (leaveRoomState st sid room) sid (.room_left room)

/-- `handle_panel_update`: read `panel_id` and `data` from the payload and
emit `panel_data` with the current timestamp to the room `'dashboard'`
(the target room is fixed by the handler, whoever the sender is). -/
def handle_panel_update (st : WSState) (panel_id : Option Nat) (data : String)
    (timestamp : String) : WSState :=
  emitToRoom st "dashboard" (.panel_data panel_id data timestamp)

/-- One inbound `panel_update` emission. -/
structure PanelUpdate where
  panel_id : Option Nat
  data : String
  timestamp : String
deriving DecidableEq, Repr

/-- The `panel_data` event produced for one `panel_update`. -/
def panelEvent (u : PanelUpdate) : WSEvent :=
  .panel_data u.panel_id u.data u.timestamp

/-- A sequence of `panel_update` emissions handled in order. -/
def runPanelUpdates (st : WSState) (ups : List PanelUpdate) : WSState :=
  ups.foldl (fun s u => handle_panel_update s u.panel_id u.data u.timestamp) st

end MTI

namespace MTI

/-- Claim C1: with the shipped `DEFAULT_PERMISSIONS`, the panel-view check
and the action capability checks return exactly the fixed table of spec
section 4.1 for the five canonical roles: Investor sees panels 1-2 only;
Audit sees panels 1-3 and has export and access-log view; Operator sees
panels 1-4 with no export/edit; Engineer sees panels 1-4 with export and
edit; Manager has every capability including user management. -/
theorem default_capability_matrix_matches_spec_table :
    (∀ n ∈ [1, 2, 3, 4],
        (principal_with_role "Investor").can_view_panel n = decide (n ≤ 2)
      ∧ (principal_with_role "Audit").can_view_panel n = decide (n ≤ 3)
      ∧ (principal_with_role "Operator").can_view_panel n = true
      ∧ (principal_with_role "Engineer").can_view_panel n = true
      ∧ (principal_with_role "Manager").can_view_panel n = true)
    ∧ (principal_with_role "Investor").can_export = false
    ∧ (principal_with_role "Investor").can_edit = false
    ∧ (principal_with_role "Investor").can_access_admin = false
    ∧ (principal_with_role "Investor").can_view_logs = false
    ∧ (principal_with_role "Audit").can_export = true
    ∧ (principal_with_role "Audit").can_edit = false
    ∧ (principal_with_role "Audit").can_access_admin = false
    ∧ (principal_with_role "Audit").can_view_logs = true
    ∧ (principal_with_role "Operator").can_export = false
    ∧ (principal_with_role "Operator").can_edit = false
    ∧ (principal_with_role "Operator").can_access_admin = false
    ∧ (principal_with_role "Operator").can_view_logs = false
    ∧ (principal_with_role "Engineer").can_export = true
    ∧ (principal_with_role "Engineer").can_edit = true
    ∧ (principal_with_role "Engineer").can_access_admin = false
    ∧ (principal_with_role "Engineer").can_view_logs = false
    ∧ (principal_with_role "Manager").can_export = true
    ∧ (principal_with_role "Manager").can_edit = true
    ∧ (principal_with_role "Manager").can_access_admin = true
    ∧ (principal_with_role "Manager").can_view_logs = true := by
  decide

/-- Claim C5: a principal with no role, or whose role has no capability row,
is denied every capability check — all panel views and all four action
checks return `false`. (The checks are total Lean functions, so no
exception can be raised.) -/
theorem missing_capability_row_denies_everything (u : User)
    (h : u.role = none ∨ ∃ r, u.role = some r ∧ r.permissions = none) :
    (∀ n : Nat, u.can_view_panel n = false)
    ∧ u.can_export = false
    ∧ u.can_edit = false
    ∧ u.can_access_admin = false
    ∧ u.can_view_logs = false := by
  have hperm : u.get_permissions = none := by
    rcases h with h | ⟨r, hr, hp⟩
    · simp [User.get_permissions, h]
    · simp [User.get_permissions, hr, hp]
  refine ⟨fun n => ?_, ?_, ?_, ?_, ?_⟩ <;>
    simp [User.can_view_panel, User.can_export, User.can_edit,
      User.can_access_admin, User.can_view_logs, hperm]

/-- Claim C2 counterexample: an Investor principal (no `manage_users`
capability) requesting deletion of its own id is denied by the
`manager_required` guard with the generic admin-access message, not with
the self-deletion message the claim promises for every role. -/
theorem self_delete_by_investor_not_self_denied :
    (delete_user [principal_with_role "Investor"]
        (principal_with_role "Investor") 1).1
      = DeleteOutcome.access_denied "Access denied. Admin privileges required."
    ∧ (delete_user [principal_with_role "Investor"]
        (principal_with_role "Investor") 1).1
      ≠ DeleteOutcome.self_delete_denied "You cannot delete yourself." := by
  decide

/-- Claim C2 (amended): for a principal whose id is present in the user
table, self-deletion never removes the record; a principal with the
`manage_users` capability is denied with the specific self-deletion
message, while a principal without it is denied earlier by the admin guard
with the generic access message. -/
theorem self_deletion_always_denied (db : List User) (cu : User)
    (hmem : (db.find? (fun u => u.id == cu.id)).isSome = true) :
    (cu.can_access_admin = true →
      (delete_user db cu cu.id).1
        = DeleteOutcome.self_delete_denied "You cannot delete yourself.")
    ∧ (cu.can_access_admin = false →
      (delete_user db cu cu.id).1
        = DeleteOutcome.access_denied "Access denied. Admin privileges required.")
    ∧ (delete_user db cu cu.id).2 = db := by
  rcases hfind : db.find? (fun u => u.id == cu.id) with _ | u
  · rw [hfind] at hmem
    simp at hmem
  · have hu : (u.id == cu.id) = true := by
      have h := List.find?_some hfind
      simpa using h
    refine ⟨fun hadm => ?_, fun hadm => ?_, ?_⟩
    · simp [delete_user, hadm, hfind, hu]
    · simp [delete_user, hadm]
    · by_cases hadm : cu.can_access_admin = true
      · simp [delete_user, hadm, hfind, hu]
      · simp [delete_user, hadm]

/-- Witness for amended C2: a concrete Manager deleting its own id is told
it cannot delete itself and the table is unchanged. -/
theorem self_deletion_always_denied_witness :
    (delete_user [principal_with_role "Manager"]
        (principal_with_role "Manager")
        (principal_with_role "Manager").id).1
      = DeleteOutcome.self_delete_denied "You cannot delete yourself."
    ∧ (delete_user [principal_with_role "Manager"]
        (principal_with_role "Manager")
        (principal_with_role "Manager").id).2
      = [principal_with_role "Manager"] := by
  have h := self_deletion_always_denied [principal_with_role "Manager"]
    (principal_with_role "Manager") (by decide)
  exact ⟨h.1 (by decide), h.2.2⟩

/-- Claim C8: a login attempt with an existing username but a wrong
password and a login attempt with a username that matches no user produce
the identical response — the uniform failure flash and a redirect back to
the login page — so the caller cannot distinguish the two (no username
enumeration). -/
theorem login_failure_uniform (db : List User) (u1 p1 u2 p2 : String)
    (n1 n2 : Option String) (r : User)
    (h1 : db.find? (fun x => x.username == u1) = some r)
    (h2 : r.check_password p1 = false)
    (h3 : db.find? (fun x => x.username == u2) = none) :
    login_post db u1 p1 n1 = login_post db u2 p2 n2
    ∧ login_post db u1 p1 n1 =
      { flash := some ("Invalid username or password", "error")
        redirect := login_url } := by
  constructor <;> simp [login_post, h1, h2, h3]

/-- Witness for C8: wrong password for existing "alice" versus unknown
"bob" give the same response. -/
theorem login_failure_uniform_witness :
    login_post [rolelessUser] "ghost" "wrong" none
      = login_post [rolelessUser] "nobody" "whatever" none := by
  exact (login_failure_uniform [rolelessUser] "ghost" "wrong" "nobody"
    "whatever" none none rolelessUser (by decide) (by decide) (by decide)).1

/-- Claim C9 counterexample: the target `//evil.example` starts with `/`,
so the login redirect accepts it verbatim — yet as a protocol-relative
reference it resolves to an external host, contradicting the claim's
assertion that no attacker-supplied external URL is ever redirected to. -/
theorem next_redirect_accepts_protocol_relative :
    py_startswith "//evil.example" "/" = true
    ∧ login_next_redirect (some "//evil.example") = "//evil.example"
    ∧ py_startswith "//evil.example" "//" = true := by
  refine ⟨by decide, ?_, by decide⟩
  decide

/-- Claim C9 (amended): a successful login redirects to the `next` target
exactly when the target starts with `/`; an absent `next` or one not
starting with `/` falls back to the dashboard grid view.  The check is
only a `startswith('/')` test, so protocol-relative targets beginning with
`//` (which browsers resolve to another host) are still accepted. -/
theorem next_redirect_requires_leading_slash (next_page : Option String) :
    (next_page = none → login_next_redirect next_page = dashboard_grid_url)
    ∧ (∀ np, next_page = some np → py_startswith np "/" = false →
        login_next_redirect next_page = dashboard_grid_url)
    ∧ (∀ np, next_page = some np → py_startswith np "/" = true →
        login_next_redirect next_page = np) := by
  refine ⟨fun h => by simp [h, login_next_redirect], ?_, ?_⟩
  · intro np h hs
    simp [h, login_next_redirect, hs]
  · intro np h hs
    have hne : np ≠ "" := by
      intro he
      rw [he] at hs
      exact absurd hs (by decide)
    simp [h, login_next_redirect, hs, hne]

/-- Witness for amended C9: concrete in-site and foreign targets. -/
theorem next_redirect_requires_leading_slash_witness :
    login_next_redirect (some "/admin/users") = "/admin/users"
    ∧ login_next_redirect (some "https://evil.example") = dashboard_grid_url
    ∧ login_next_redirect none = dashboard_grid_url := by
  refine ⟨?_, ?_, ?_⟩
  · exact (next_redirect_requires_leading_slash
      (some "/admin/users")).2.2 "/admin/users" rfl (by decide)
  · exact (next_redirect_requires_leading_slash
      (some "https://evil.example")).2.1 "https://evil.example" rfl (by decide)
  · exact (next_redirect_requires_leading_slash none).1 rfl

/-- The loop body's skip condition coincides with `malformed`, and the
created row with `created_row`. -/
theorem ingest_item_ite (item : RawRecord) :
    ingest_item item = if malformed item then none else some (created_row item) := by
  by_cases h : item.sensor_name.getD "" = ""
  · simp [ingest_item, malformed, h]
  · cases hv : pyfloat item.value with
    | none => simp [ingest_item, malformed, created_row, h, hv]
    | some f => simp [ingest_item, malformed, created_row, h, hv]

/-- The ingest fold appends exactly the rows of the well-formed items, in
submission order. -/
theorem ingest_fold_eq (items : List RawRecord) (acc : List CreatedRecord) :
    items.foldl (fun acc item =>
      match ingest_item item with
      | none => acc
      | some row => acc ++ [row]) acc
    = acc ++ (items.filter (fun i => !(malformed i))).map created_row := by
  induction items generalizing acc with
  | nil => simp
  | cons i rest ih =>
    by_cases h : malformed i
    · have hi : ingest_item i = none := by
        rw [ingest_item_ite, if_pos h]
      simp [List.foldl_cons, hi, h, ih]
    · have hi : ingest_item i = some (created_row i) := by
        rw [ingest_item_ite, if_neg h]
      simp [List.foldl_cons, hi, h, ih]

/-- Counting the kept items is the total minus the dropped ones. -/
theorem length_filter_not_eq_sub {α : Type} (p : α → Bool) (l : List α) :
    (l.filter (fun i => !(p i))).length = l.length - (l.filter p).length := by
  induction l with
  | nil => rfl
  | cons i rest ih =>
    have hle : (rest.filter p).length ≤ rest.length := List.length_filter_le _ _
    by_cases h : p i <;> simp [h, ih] <;> try omega

/-- Claim C3 counterexample: a one-record batch whose value is the string
`"inf"` is malformed in the claim's sense (`float("inf")` is not finite),
so the claim demands `created = 1 - 1 = 0`; the code coerces it and
creates the row, reporting `created = 1`. -/
theorem ingest_creates_infinite_valued_record :
    spec_malformed inf_item = true
    ∧ (ingest_sensor_data [inf_item]).created = 1
    ∧ (ingest_sensor_data [inf_item]).created
        ≠ [inf_item].length - ([inf_item].filter (fun i => spec_malformed i)).length := by
  refine ⟨by decide, by decide, by decide⟩

/-- Claim C3 (amended): for a batch of N records of which M are malformed
— empty or missing source name, missing value, or a value on which
`float()` raises (finiteness of the coerced float is not checked, so
`"inf"`/`"nan"` strings are accepted) — ingestion creates the other
N − M records and returns `created = N − M` with the data list holding
exactly the created rows in submission order; no malformed record aborts
the rest of the batch. -/
theorem ingest_partial_success (items : List RawRecord) :
    (ingest_sensor_data items).created
        = items.length - (items.filter (fun i => malformed i)).length
    ∧ (ingest_sensor_data items).data
        = (items.filter (fun i => !(malformed i))).map created_row := by
  constructor
  · simp [ingest_sensor_data, ingest_fold_eq,
      length_filter_not_eq_sub (fun i => malformed i) items]
  · simp [ingest_sensor_data, ingest_fold_eq]

/-- Claim C6: the sensor-data query returns exactly `min limit M` rows,
where `M` counts the readings matching the name filter and lying within
the last `hours` window; every returned row is within the window (so a
reading at now−2h is excluded for `hours = 1`), the rows are drawn from
the matching readings, presented in ascending timestamp order, and are
the most recent ones — any matching reading strictly newer than a
returned one is itself returned. -/
theorem query_most_recent_window_ascending (table : List Reading)
    (sensor_name : Option String) (hours : Int) (limit : Nat) (now : Int) :
    (get_sensor_data table sensor_name hours limit now).length
        = min limit (query_matching table sensor_name hours now).length
    ∧ List.Pairwise (fun a b => a.timestamp ≤ b.timestamp)
        (get_sensor_data table sensor_name hours limit now)
    ∧ List.Subperm (get_sensor_data table sensor_name hours limit now)
        (query_matching table sensor_name hours now)
    ∧ (∀ r ∈ get_sensor_data table sensor_name hours limit now,
        now - hours * 3600 ≤ r.timestamp)
    ∧ (∀ a ∈ query_matching table sensor_name hours now,
        ∀ b ∈ get_sensor_data table sensor_name hours limit now,
          b.timestamp < a.timestamp →
            a ∈ get_sensor_data table sensor_name hours limit now) := by
  have hsorted : List.Pairwise tsDesc
      ((query_matching table sensor_name hours now).insertionSort tsDesc) :=
    List.sorted_insertionSort tsDesc _
  have hperm : List.Perm
      ((query_matching table sensor_name hours now).insertionSort tsDesc)
      (query_matching table sensor_name hours now) :=
    List.perm_insertionSort tsDesc _
  have hsub : List.Subperm (get_sensor_data table sensor_name hours limit now)
      (query_matching table sensor_name hours now) := by
    unfold get_sensor_data
    exact ((List.reverse_perm _).subperm).trans
      (((List.take_sublist _ _).subperm).trans hperm.subperm)
  refine ⟨?_, ?_, hsub, ?_, ?_⟩
  · unfold get_sensor_data
    rw [List.length_reverse, List.length_take, hperm.length_eq]
  · unfold get_sensor_data
    refine List.pairwise_reverse.mpr ?_
    exact (hsorted.sublist (List.take_sublist _ _)).imp (fun h => h)
  · intro r hr
    have hrM : r ∈ query_matching table sensor_name hours now := hsub.subset hr
    unfold query_matching at hrM
    exact of_decide_eq_true (List.mem_filter.mp hrM).2
  · intro a ha b hb hlt
    unfold get_sensor_data at hb ⊢
    rw [List.mem_reverse] at hb ⊢
    by_contra hna
    have haS : a ∈ (query_matching table sensor_name hours now).insertionSort tsDesc :=
      hperm.mem_iff.mpr ha
    have haTD : a ∈
        ((query_matching table sensor_name hours now).insertionSort tsDesc).take limit
        ++ ((query_matching table sensor_name hours now).insertionSort tsDesc).drop limit := by
      rw [List.take_append_drop]
      exact haS
    have haD : a ∈
        ((query_matching table sensor_name hours now).insertionSort tsDesc).drop limit := by
      rcases List.mem_append.mp haTD with h | h
      · exact absurd h hna
      · exact h
    have hsplit : List.Pairwise tsDesc
        (((query_matching table sensor_name hours now).insertionSort tsDesc).take limit
          ++ ((query_matching table sensor_name hours now).insertionSort tsDesc).drop limit) := by
      rw [List.take_append_drop]
      exact hsorted
    have hle : a.timestamp ≤ b.timestamp :=
      (List.pairwise_append.mp hsplit).2.2 b hb a haD
    exact absurd hlt (not_lt.mpr hle)

/-- Witness for C6 on a three-row table (one reading two hours old, two in
the window) with `hours = 1`, `limit = 2`, `now = 7200`: the row count is
`min 2 2` and the newest reading is returned because a returned reading is
older than it. -/
theorem query_most_recent_window_ascending_witness :
    (get_sensor_data demo_table none 1 2 7200).length
        = min 2 (query_matching demo_table none 1 7200).length
    ∧ readingNew ∈ get_sensor_data demo_table none 1 2 7200 := by
  have h := query_most_recent_window_ascending demo_table none 1 2 7200
  exact ⟨h.1, h.2.2.2.2 readingNew (by decide) readingMid (by decide) (by decide)⟩

/-- Claim C7: export aborts with HTTP 403 and no file payload for a
principal without the export capability, and for a principal with it
responds HTTP 200 with the spreadsheet MIME type — whatever rows (possibly
none) match the date filter. -/
theorem export_gated_by_capability (cu : User) (table : List Reading)
    (start_date end_date : Option Int) :
    (cu.can_export = false →
      export_xlsx cu table start_date end_date
        = ExportResult.forbidden 403 "You do not have permission to export data.")
    ∧ (cu.can_export = true →
      ∃ rows, export_xlsx cu table start_date end_date
        = ExportResult.file 200 export_mimetype rows) := by
  constructor
  · intro h
    simp [export_xlsx, h]
  · intro h
    exact ⟨export_rows table start_date end_date, by simp [export_xlsx, h]⟩

/-- Witness for C7: an Investor is refused with 403; an Engineer receives
a 200 spreadsheet response even over an empty table. -/
theorem export_gated_by_capability_witness :
    export_xlsx (principal_with_role "Investor") [] none none
      = ExportResult.forbidden 403 "You do not have permission to export data."
    ∧ ∃ rows, export_xlsx (principal_with_role "Engineer") [] none none
      = ExportResult.file 200 export_mimetype rows := by
  exact ⟨(export_gated_by_capability (principal_with_role "Investor") [] none none).1
      (by decide),
    (export_gated_by_capability (principal_with_role "Engineer") [] none none).2
      (by decide)⟩

/-- Claim C4: handling a sequence of `panel_update` emissions delivers the
corresponding `panel_data` events (carrying the submitted `panel_id` and a
timestamp) to exactly the connections that are members of the target room
`'dashboard'` — appended to their inboxes in emission order (FIFO per
room) — while every connection outside the room is left untouched. -/
theorem panel_update_dashboard_fanout (st : WSState) (ups : List PanelUpdate) :
    (runPanelUpdates st ups).conns
      = st.conns.map (fun c =>
          if "dashboard" ∈ c.rooms then
            { c with inbox := c.inbox ++ ups.map panelEvent }
          else c) := by
  induction ups generalizing st with
  | nil =>
    simp only [runPanelUpdates, List.foldl_nil, List.map_nil, List.append_nil]
    have h : (fun (c : Conn) =>
        if "dashboard" ∈ c.rooms then { c with inbox := c.inbox } else c)
        = fun c => c := by
      funext c
      by_cases hm : "dashboard" ∈ c.rooms <;> simp [hm]
    rw [h, List.map_id']
  | cons u rest ih =>
    have hstep : runPanelUpdates st (u :: rest)
        = runPanelUpdates (handle_panel_update st u.panel_id u.data u.timestamp) rest := rfl
    have hconns : (handle_panel_update st u.panel_id u.data u.timestamp).conns
        = st.conns.map (fun c =>
            if "dashboard" ∈ c.rooms then
              { c with inbox := c.inbox ++ [panelEvent u] }
            else c) := rfl
    rw [hstep, ih, hconns, List.map_map]
    refine List.map_congr_left ?_
    intro c _
    by_cases hm : "dashboard" ∈ c.rooms <;> simp [Function.comp, hm]

/-- Claim C10: a `join_room` or `leave_room` event whose payload lacks the
room key behaves exactly as if the room were `'default'`: the requesting
connection's membership gains (resp. loses) room `'default'`, the
requester alone receives the `room_joined` (resp. `room_left`)
acknowledgment naming `'default'`, and every other connection is
untouched. -/
theorem join_leave_without_room_key_uses_default (st : WSState) (sid : Nat) :
    handle_join_room st sid none = handle_join_room st sid (some "default")
    ∧ handle_leave_room st sid none = handle_leave_room st sid (some "default")
    ∧ (handle_join_room st sid none).conns
      = st.conns.map (fun c =>
          if c.sid = sid then
            { c with
                rooms := if "default" ∈ c.rooms then c.rooms else c.rooms ++ ["default"]
                inbox := c.inbox ++ [WSEvent.room_joined "default"] }
          else c)
    ∧ (handle_leave_room st sid none).conns
      = st.conns.map (fun c =>
          if c.sid = sid then
            { c with
                rooms := c.rooms.erase "default"
                inbox := c.inbox ++ [WSEvent.room_left "default"] }
          else c) := by
  refine ⟨rfl, rfl, ?_, ?_⟩
  · have h : (handle_join_room st sid none).conns
        = (st.conns.map (fun c =>
            if c.sid = sid then
              { c with rooms := if "default" ∈ c.rooms then c.rooms
                  else c.rooms ++ ["default"] }
            else c)).map (fun c =>
              if c.sid = sid then
                { c with inbox := c.inbox ++ [WSEvent.room_joined "default"] }
              else c) := rfl
    rw [h, List.map_map]
    refine List.map_congr_left ?_
    intro c _
    by_cases hs : c.sid = sid <;> simp [Function.comp, hs]
  · have h : (handle_leave_room st sid none).conns
        = (st.conns.map (fun c =>
            if c.sid = sid then { c with rooms := c.rooms.erase "default" } else c)).map
              (fun c =>
                if c.sid = sid then
                  { c with inbox := c.inbox ++ [WSEvent.room_left "default"] }
                else c) := rfl
    rw [h, List.map_map]
    refine List.map_congr_left ?_
    intro c _
    by_cases hs : c.sid = sid <;> simp [Function.comp, hs]

/-- Witness for C5 at a concrete roleless principal. -/
theorem missing_capability_row_denies_everything_witness :
    rolelessUser.can_view_panel 1 = false ∧ rolelessUser.can_export = false := by
  have h := missing_capability_row_denies_everything rolelessUser (Or.inl rfl)
  exact ⟨h.1 1, h.2.1⟩

end MTI
